import Mathlib

/-!
Verification of the CSV-to-long-form reshape and filter/query layer of the
hash-table collision-resolution dashboard (src/app.py).

The wide table has the twelve columns of ALL_COLS; numeric cells are
modelled as `Option ℚ` so that a missing cell (pandas NaN) is `none`.
`melt` embeds pandas `DataFrame.melt` with its variable-major stacking of
the value columns; `df_probes`, `df_time`, `df_long`, `TECHNIQUE_MAP`,
`addTechnique` and `load_data` follow `load_data` in src/app.py line by
line, and `query` embeds the five-conjunct boolean mask of `df_filtered`.
-/

/-- One row of the wide table read from results_data.csv with the explicit
ALL_COLS schema of src/app.py.  Numeric cells are `Option ℚ`; `none` models
a missing value (pandas NaN). -/
structure WideRow where
  key_index : Option ℚ
  load_factor : Option ℚ
  scale : String
  distribution : String
  chaining_probes : Option ℚ
  linear_probing_probes : Option ℚ
  quadratic_probing_probes : Option ℚ
  double_hashing_probes : Option ℚ
  chaining_time_ms : Option ℚ
  linear_probing_time_ms : Option ℚ
  quadratic_probing_time_ms : Option ℚ
  double_hashing_time_ms : Option ℚ
  deriving Repr, DecidableEq

/-- One row of a melted frame: the four id columns carried forward, the raw
melted column name (`Technique_Raw`), the melted value (`Metric_Value`) and
the `Metric_Type` tag assigned to the group. -/
structure MeltRow where
  scale : String
  distribution : String
  load_factor : Option ℚ
  key_index : Option ℚ
  technique_raw : String
  metric_value : Option ℚ
  metric_type : String
  deriving Repr, DecidableEq

/-- One row of the final long table: a melted row plus the human-readable
`Technique` column produced by the TECHNIQUE_MAP lookup. -/
structure LongRow where
  scale : String
  distribution : String
  load_factor : Option ℚ
  key_index : Option ℚ
  technique_raw : String
  metric_value : Option ℚ
  metric_type : String
  technique : String
  deriving Repr, DecidableEq

/-- The PROBE_COLS list of src/app.py: each probe column name paired with
its accessor on the wide row. -/
def PROBE_COLS : List (String × (WideRow → Option ℚ)) :=
  [("Chaining_Probes", WideRow.chaining_probes),
   ("Linear_Probing_Probes", WideRow.linear_probing_probes),
   ("Quadratic_Probing_Probes", WideRow.quadratic_probing_probes),
   ("Double_Hashing_Probes", WideRow.double_hashing_probes)]

/-- The TIME_COLS list of src/app.py. -/
def TIME_COLS : List (String × (WideRow → Option ℚ)) :=
  [("Chaining_Time_ms", WideRow.chaining_time_ms),
   ("Linear_Probing_Time_ms", WideRow.linear_probing_time_ms),
   ("Quadratic_Probing_Time_ms", WideRow.quadratic_probing_time_ms),
   ("Double_Hashing_Time_ms", WideRow.double_hashing_time_ms)]

/-- One melted cell: id columns carried forward unchanged, the raw column
name and the cell value, tagged with the group's metric type. -/
def meltCell (mt : String) (r : WideRow) (c : String × (WideRow → Option ℚ)) : MeltRow :=
  { scale := r.scale, distribution := r.distribution, load_factor := r.load_factor,
    key_index := r.key_index, technique_raw := c.1, metric_value := c.2 r,
    metric_type := mt }

/-- Embedding of `df.melt(id_vars=..., value_vars=cols, ...)` followed by
`.assign(Metric_Type=mt)`: pandas melt stacks the value columns
variable-major (all rows of the first value column, then all rows of the
second, ...), preserving input row order within each column. -/
def melt (cols : List (String × (WideRow → Option ℚ))) (mt : String)
    (w : List WideRow) : List MeltRow :=
  cols.flatMap (fun c => w.map (fun r => meltCell mt r c))

/-- The probe-group melt of src/app.py (`df_probes`), tagged "Total Probes". -/
def df_probes (w : List WideRow) : List MeltRow := melt PROBE_COLS "Total Probes" w

/-- The timing-group melt of src/app.py (`df_time`), tagged
"Insertion Time (ms)". -/
def df_time (w : List WideRow) : List MeltRow := melt TIME_COLS "Insertion Time (ms)" w

/-- `pd.concat([df_probes, df_time], ignore_index=True)`. -/
def df_long (w : List WideRow) : List MeltRow := df_probes w ++ df_time w

/-- The TECHNIQUE_MAP dictionary of src/app.py as a partial lookup:
`none` models the KeyError raised by `TECHNIQUE_MAP[x]` on a missing key. -/
def TECHNIQUE_MAP : String → Option String
  | "Chaining_Probes" => some "Separate Chaining"
  | "Linear_Probing_Probes" => some "Linear Probing"
  | "Quadratic_Probing_Probes" => some "Quadratic Probing"
  | "Double_Hashing_Probes" => some "Double Hashing"
  | "Chaining_Time_ms" => some "Separate Chaining"
  | "Linear_Probing_Time_ms" => some "Linear Probing"
  | "Quadratic_Probing_Time_ms" => some "Quadratic Probing"
  | "Double_Hashing_Time_ms" => some "Double Hashing"
  | _ => none

/-- The assignment `df_long['Technique'] = df_long['Technique_Raw'].map(lambda x:
TECHNIQUE_MAP[x])` on a single row; `none` models the KeyError. -/
def addTechnique (m : MeltRow) : Option LongRow :=
  (TECHNIQUE_MAP m.technique_raw).map (fun t =>
    { scale := m.scale, distribution := m.distribution, load_factor := m.load_factor,
      key_index := m.key_index, technique_raw := m.technique_raw,
      metric_value := m.metric_value, metric_type := m.metric_type, technique := t })

/-- The full `load_data` reshape of src/app.py on an already-loaded wide
table: `none` models a KeyError escaping the Technique mapping. -/
def load_data (w : List WideRow) : Option (List LongRow) :=
  (df_long w).mapM addTechnique

/-- The long table produced by `load_data` (the rows for which the
Technique lookup succeeds; the lookup is proved total below, so this is
exactly the table `load_data` returns). -/
def long_table (w : List WideRow) : List LongRow :=
  (df_long w).filterMap addTechnique

/-- The sidebar predicate set consumed by the `df_filtered` mask.  A `none`
field is an omitted predicate (no constraint on that dimension); in
src/app.py all five are always supplied by the sidebar widgets. -/
structure Predicates where
  metric_type : Option String
  scale : Option String
  distributions : Option (List String)
  techniques : Option (List String)
  max_load_factor : Option ℚ
  deriving Repr, DecidableEq

/-- Evaluation of one optional predicate: an omitted predicate keeps every
row. -/
def optMatch {α : Type} (p : Option α) (f : α → Bool) : Bool :=
  match p with
  | none => true
  | some x => f x

/-- The comparison `df['Load_Factor'] <= max_load_factor`: a missing load
factor (NaN) compares false. -/
def le_nan (x : Option ℚ) (a : ℚ) : Bool :=
  match x with
  | none => false
  | some v => decide (v ≤ a)

/-- The five-conjunct boolean mask of `df_filtered` in src/app.py, in the
source's conjunct order: Metric_Type equality, Scale equality, Distribution
membership (`isin`), Technique membership (`isin`), Load_Factor bound. -/
def rowMatches (P : Predicates) (r : LongRow) : Bool :=
  optMatch P.metric_type (fun m => r.metric_type == m) &&
  optMatch P.scale (fun s => r.scale == s) &&
  optMatch P.distributions (fun D => decide (r.distribution ∈ D)) &&
  optMatch P.techniques (fun T => decide (r.technique ∈ T)) &&
  optMatch P.max_load_factor (fun a => le_nan r.load_factor a)

/-- The filter `df[mask]` producing `df_filtered`: a pure row filter. -/
def query (T : List LongRow) (P : Predicates) : List LongRow :=
  T.filter (rowMatches P)

/-- Maximum of a numeric column with pandas `skipna` semantics: the maximum
of the non-missing values, `none` when there are none (the all-NaN/empty
case, where pandas returns NaN). -/
def seriesMax (l : List (Option ℚ)) : Option ℚ :=
  match l.filterMap id with
  | [] => none
  | x :: xs => some (xs.foldl max x)

/-- Python `int()` truncation toward zero on a rational. -/
def pyInt (q : ℚ) : ℤ :=
  if q < 0 then ⌈q⌉ else ⌊q⌋

/-- The expression `int(df_filtered['Key_Index'].max())` of src/app.py line
155: `none` models the ValueError raised by `int(nan)` when the filtered
table is empty (or its Key_Index column all missing). -/
def max_key_index (l : List LongRow) : Option ℤ :=
  (seriesMax (l.map LongRow.key_index)).map pyInt

/-- The long row produced for wide row `r` by melting column `raw` with
value `v` under metric type `mt` and mapped technique `tech`. -/
def mkLong (r : WideRow) (raw : String) (v : Option ℚ) (mt tech : String) : LongRow :=
  { scale := r.scale, distribution := r.distribution, load_factor := r.load_factor,
    key_index := r.key_index, technique_raw := raw, metric_value := v,
    metric_type := mt, technique := tech }

/-- The long row a single melted block produces for wide row `r`. -/
def blockF (raw : String) (get : WideRow → Option ℚ) (mt tech : String)
    (r : WideRow) : LongRow :=
  mkLong r raw (get r) mt tech

theorem filterMap_melt_block (raw : String) (get : WideRow → Option ℚ)
    (mt tech : String) (h : TECHNIQUE_MAP raw = some tech) (w : List WideRow) :
    (w.map (fun r => meltCell mt r (raw, get))).filterMap addTechnique
      = w.map (blockF raw get mt tech) := by
  induction w with
  | nil => rfl
  | cons a l ih =>
    simp only [List.map_cons, List.filterMap_cons]
    rw [show addTechnique (meltCell mt a (raw, get))
          = some (blockF raw get mt tech a) by
        simp [addTechnique, meltCell, mkLong, blockF, h]]
    rw [ih]

/-- Evaluation of the full reshape: the long table is the concatenation of
the eight melted blocks, four probe blocks then four timing blocks, each in
input row order. -/
theorem long_table_eq (w : List WideRow) :
    long_table w =
      w.map (blockF "Chaining_Probes" WideRow.chaining_probes
        "Total Probes" "Separate Chaining") ++
      (w.map (blockF "Linear_Probing_Probes" WideRow.linear_probing_probes
        "Total Probes" "Linear Probing") ++
      (w.map (blockF "Quadratic_Probing_Probes" WideRow.quadratic_probing_probes
        "Total Probes" "Quadratic Probing") ++
      (w.map (blockF "Double_Hashing_Probes" WideRow.double_hashing_probes
        "Total Probes" "Double Hashing") ++
      (w.map (blockF "Chaining_Time_ms" WideRow.chaining_time_ms
        "Insertion Time (ms)" "Separate Chaining") ++
      (w.map (blockF "Linear_Probing_Time_ms" WideRow.linear_probing_time_ms
        "Insertion Time (ms)" "Linear Probing") ++
      (w.map (blockF "Quadratic_Probing_Time_ms" WideRow.quadratic_probing_time_ms
        "Insertion Time (ms)" "Quadratic Probing") ++
      w.map (blockF "Double_Hashing_Time_ms" WideRow.double_hashing_time_ms
        "Insertion Time (ms)" "Double Hashing"))))))) := by
  unfold long_table df_long df_probes df_time melt PROBE_COLS TIME_COLS
  simp only [List.flatMap_cons, List.flatMap_nil, List.append_nil,
    List.filterMap_append, List.append_assoc]
  rw [filterMap_melt_block "Chaining_Probes" WideRow.chaining_probes
        "Total Probes" "Separate Chaining" rfl,
    filterMap_melt_block "Linear_Probing_Probes" WideRow.linear_probing_probes
        "Total Probes" "Linear Probing" rfl,
    filterMap_melt_block "Quadratic_Probing_Probes" WideRow.quadratic_probing_probes
        "Total Probes" "Quadratic Probing" rfl,
    filterMap_melt_block "Double_Hashing_Probes" WideRow.double_hashing_probes
        "Total Probes" "Double Hashing" rfl,
    filterMap_melt_block "Chaining_Time_ms" WideRow.chaining_time_ms
        "Insertion Time (ms)" "Separate Chaining" rfl,
    filterMap_melt_block "Linear_Probing_Time_ms" WideRow.linear_probing_time_ms
        "Insertion Time (ms)" "Linear Probing" rfl,
    filterMap_melt_block "Quadratic_Probing_Time_ms" WideRow.quadratic_probing_time_ms
        "Insertion Time (ms)" "Quadratic Probing" rfl,
    filterMap_melt_block "Double_Hashing_Time_ms" WideRow.double_hashing_time_ms
        "Insertion Time (ms)" "Double Hashing" rfl]

/-- Number of unpivoted (probe or timing) cells of a wide row that are
actually populated (non-missing). -/
def populatedCount (r : WideRow) : ℕ :=
  (([r.chaining_probes, r.linear_probing_probes, r.quadratic_probing_probes,
     r.double_hashing_probes, r.chaining_time_ms, r.linear_probing_time_ms,
     r.quadratic_probing_time_ms, r.double_hashing_time_ms]).filter Option.isSome).length

/-- The load factor 0.5 of the concrete two-row scenario. -/
def q05 : ℚ := 0.5

/-- The probe value 1.2 of the concrete two-row scenario. -/
def q12 : ℚ := 1.2

/-- The probe value 1.8 of the concrete two-row scenario. -/
def q18 : ℚ := 1.8

/-- The probe value 1.5 of the concrete two-row scenario. -/
def q15 : ℚ := 1.5

/-- The probe value 3.0 of the concrete two-row scenario. -/
def q30 : ℚ := 3.0

/-- The Uniform row of the concrete two-row scenario:
(Uniform, 0.5, Chaining_Probes=1.2, Linear_Probing_Probes=1.8); cells the
scenario leaves unspecified are missing. -/
def wU : WideRow :=
  { key_index := some 1, load_factor := some q05, scale := "Macro",
    distribution := "Uniform",
    chaining_probes := some q12, linear_probing_probes := some q18,
    quadratic_probing_probes := none, double_hashing_probes := none,
    chaining_time_ms := none, linear_probing_time_ms := none,
    quadratic_probing_time_ms := none, double_hashing_time_ms := none }

/-- The Skewed row of the concrete two-row scenario:
(Skewed, 0.5, Chaining_Probes=1.5, Linear_Probing_Probes=3.0). -/
def wS : WideRow :=
  { key_index := some 1, load_factor := some q05, scale := "Macro",
    distribution := "Skewed",
    chaining_probes := some q15, linear_probing_probes := some q30,
    quadratic_probing_probes := none, double_hashing_probes := none,
    chaining_time_ms := none, linear_probing_time_ms := none,
    quadratic_probing_time_ms := none, double_hashing_time_ms := none }

/-- The reshape of the two scenario rows over the probe columns
`[Chaining_Probes, Linear_Probing_Probes]` (the first two PROBE_COLS),
with the Technique column assigned as in `load_data`. -/
def c2_long : List LongRow :=
  (melt (PROBE_COLS.take 2) "Total Probes" [wU, wS]).filterMap addTechnique

/-- The predicate set that supplies only `distributions = {"Uniform"}`. -/
def c2_preds : Predicates :=
  { metric_type := none, scale := none, distributions := some ["Uniform"],
    techniques := none, max_load_factor := none }

/-- C2 (counterexample): the reshape of the two scenario rows over the two
probe columns does yield 4 long rows, but their metric type is the source's
"Total Probes" tag, not "Average Probes" as the claim states. -/
theorem C2_metric_label_counterexample :
    c2_long.length = 4 ∧
    c2_long.all (fun r => r.metric_type == "Average Probes") = false :=
  ⟨rfl, rfl⟩

/-- C2 (amended): the reshape of the two scenario rows over the probe
columns `[Chaining_Probes, Linear_Probing_Probes]` yields exactly 4 long
rows, each with metric type "Total Probes", and filtering with
`distributions = {"Uniform"}` yields exactly the 2 rows whose distribution
is "Uniform", with values 1.2 and 1.8 unchanged. -/
theorem C2_scenario :
    c2_long.length = 4 ∧
    c2_long.all (fun r => r.metric_type == "Total Probes") = true ∧
    query c2_long c2_preds =
      [{ scale := "Macro", distribution := "Uniform", load_factor := some q05,
         key_index := some 1, technique_raw := "Chaining_Probes",
         metric_value := some q12, metric_type := "Total Probes",
         technique := "Separate Chaining" },
       { scale := "Macro", distribution := "Uniform", load_factor := some q05,
         key_index := some 1, technique_raw := "Linear_Probing_Probes",
         metric_value := some q18, metric_type := "Total Probes",
         technique := "Linear Probing" }] :=
  ⟨rfl, rfl, rfl⟩

/-- The predicate set in which every distribution has been deselected. -/
def c1_preds : Predicates :=
  { metric_type := none, scale := none, distributions := some [],
    techniques := none, max_load_factor := none }

/-- C1 (code evaluation at the failing input): deselecting every
distribution filters the scenario's long table down to zero rows, and the
subsequent `int(df_filtered['Key_Index'].max())` of src/app.py line 155
takes the unguarded raising path (`none` — pandas returns NaN for the
maximum of the empty column and `int(nan)` raises ValueError); no zero-row
guard exists before it. -/
theorem C1_unguarded_empty_max :
    query (long_table [wU, wS]) c1_preds = [] ∧
    max_key_index (query (long_table [wU, wS]) c1_preds) = none :=
  ⟨rfl, rfl⟩

/-- A wide row whose chaining timing cell is missing (all other unpivoted
cells populated). -/
def w0 : WideRow :=
  { key_index := some 1, load_factor := some q05, scale := "Macro",
    distribution := "Uniform",
    chaining_probes := some q12, linear_probing_probes := some q18,
    quadratic_probing_probes := some q15, double_hashing_probes := some q30,
    chaining_time_ms := none, linear_probing_time_ms := some 2,
    quadratic_probing_time_ms := some 2, double_hashing_time_ms := some 2 }

/-- Membership of a long row in the timing group of the chaining
technique. -/
def chainTimePred (r : LongRow) : Bool :=
  r.technique == "Separate Chaining" && r.metric_type == "Insertion Time (ms)"

theorem filter_map_none {α β : Type} (f : α → β) (p : β → Bool)
    (h : ∀ r, p (f r) = false) (w : List α) : (w.map f).filter p = [] := by
  induction w with
  | nil => rfl
  | cons a l ih => simp [List.filter_cons, h, ih]

theorem filter_map_all {α β : Type} (f : α → β) (p : β → Bool)
    (h : ∀ r, p (f r) = true) (w : List α) : (w.map f).filter p = w.map f := by
  induction w with
  | nil => rfl
  | cons a l ih => simp [List.filter_cons, h, ih]

/-- C3 (counterexample): for the input row `w0`, whose chaining timing
value is absent, the long table's timing group does contain a row for the
chaining technique — a missing-marker row (value `none`), so the claim that
no row at all appears is false; the row's value is the missing marker, not
zero. -/
theorem C3_absent_timing_counterexample :
    ((long_table [w0]).filter chainTimePred).map LongRow.metric_value = [none] ∧
    ((long_table [w0]).filter chainTimePred).length ≠ 0 :=
  ⟨rfl, by decide⟩

/-- Membership of a long row in the timing group of the given
technique. -/
def timePred (tech : String) (r : LongRow) : Bool :=
  r.technique == tech && r.metric_type == "Insertion Time (ms)"

theorem time_pass_ct (w : List WideRow) :
    ((long_table w).filter (timePred "Separate Chaining")).map LongRow.metric_value
      = w.map WideRow.chaining_time_ms := by
  rw [long_table_eq]
  simp only [List.filter_append]
  rw [
    filter_map_none (blockF "Chaining_Probes" WideRow.chaining_probes
        "Total Probes" "Separate Chaining") (timePred "Separate Chaining") (fun r => rfl),
    filter_map_none (blockF "Linear_Probing_Probes" WideRow.linear_probing_probes
        "Total Probes" "Linear Probing") (timePred "Separate Chaining") (fun r => rfl),
    filter_map_none (blockF "Quadratic_Probing_Probes" WideRow.quadratic_probing_probes
        "Total Probes" "Quadratic Probing") (timePred "Separate Chaining") (fun r => rfl),
    filter_map_none (blockF "Double_Hashing_Probes" WideRow.double_hashing_probes
        "Total Probes" "Double Hashing") (timePred "Separate Chaining") (fun r => rfl),
    filter_map_all (blockF "Chaining_Time_ms" WideRow.chaining_time_ms
        "Insertion Time (ms)" "Separate Chaining") (timePred "Separate Chaining") (fun r => rfl),
    filter_map_none (blockF "Linear_Probing_Time_ms" WideRow.linear_probing_time_ms
        "Insertion Time (ms)" "Linear Probing") (timePred "Separate Chaining") (fun r => rfl),
    filter_map_none (blockF "Quadratic_Probing_Time_ms" WideRow.quadratic_probing_time_ms
        "Insertion Time (ms)" "Quadratic Probing") (timePred "Separate Chaining") (fun r => rfl),
    filter_map_none (blockF "Double_Hashing_Time_ms" WideRow.double_hashing_time_ms
        "Insertion Time (ms)" "Double Hashing") (timePred "Separate Chaining") (fun r => rfl)]
  simp only [List.nil_append, List.append_nil]
  rw [List.map_map]
  rfl

theorem time_pass_lt (w : List WideRow) :
    ((long_table w).filter (timePred "Linear Probing")).map LongRow.metric_value
      = w.map WideRow.linear_probing_time_ms := by
  rw [long_table_eq]
  simp only [List.filter_append]
  rw [
    filter_map_none (blockF "Chaining_Probes" WideRow.chaining_probes
        "Total Probes" "Separate Chaining") (timePred "Linear Probing") (fun r => rfl),
    filter_map_none (blockF "Linear_Probing_Probes" WideRow.linear_probing_probes
        "Total Probes" "Linear Probing") (timePred "Linear Probing") (fun r => rfl),
    filter_map_none (blockF "Quadratic_Probing_Probes" WideRow.quadratic_probing_probes
        "Total Probes" "Quadratic Probing") (timePred "Linear Probing") (fun r => rfl),
    filter_map_none (blockF "Double_Hashing_Probes" WideRow.double_hashing_probes
        "Total Probes" "Double Hashing") (timePred "Linear Probing") (fun r => rfl),
    filter_map_none (blockF "Chaining_Time_ms" WideRow.chaining_time_ms
        "Insertion Time (ms)" "Separate Chaining") (timePred "Linear Probing") (fun r => rfl),
    filter_map_all (blockF "Linear_Probing_Time_ms" WideRow.linear_probing_time_ms
        "Insertion Time (ms)" "Linear Probing") (timePred "Linear Probing") (fun r => rfl),
    filter_map_none (blockF "Quadratic_Probing_Time_ms" WideRow.quadratic_probing_time_ms
        "Insertion Time (ms)" "Quadratic Probing") (timePred "Linear Probing") (fun r => rfl),
    filter_map_none (blockF "Double_Hashing_Time_ms" WideRow.double_hashing_time_ms
        "Insertion Time (ms)" "Double Hashing") (timePred "Linear Probing") (fun r => rfl)]
  simp only [List.nil_append, List.append_nil]
  rw [List.map_map]
  rfl

theorem time_pass_qt (w : List WideRow) :
    ((long_table w).filter (timePred "Quadratic Probing")).map LongRow.metric_value
      = w.map WideRow.quadratic_probing_time_ms := by
  rw [long_table_eq]
  simp only [List.filter_append]
  rw [
    filter_map_none (blockF "Chaining_Probes" WideRow.chaining_probes
        "Total Probes" "Separate Chaining") (timePred "Quadratic Probing") (fun r => rfl),
    filter_map_none (blockF "Linear_Probing_Probes" WideRow.linear_probing_probes
        "Total Probes" "Linear Probing") (timePred "Quadratic Probing") (fun r => rfl),
    filter_map_none (blockF "Quadratic_Probing_Probes" WideRow.quadratic_probing_probes
        "Total Probes" "Quadratic Probing") (timePred "Quadratic Probing") (fun r => rfl),
    filter_map_none (blockF "Double_Hashing_Probes" WideRow.double_hashing_probes
        "Total Probes" "Double Hashing") (timePred "Quadratic Probing") (fun r => rfl),
    filter_map_none (blockF "Chaining_Time_ms" WideRow.chaining_time_ms
        "Insertion Time (ms)" "Separate Chaining") (timePred "Quadratic Probing") (fun r => rfl),
    filter_map_none (blockF "Linear_Probing_Time_ms" WideRow.linear_probing_time_ms
        "Insertion Time (ms)" "Linear Probing") (timePred "Quadratic Probing") (fun r => rfl),
    filter_map_all (blockF "Quadratic_Probing_Time_ms" WideRow.quadratic_probing_time_ms
        "Insertion Time (ms)" "Quadratic Probing") (timePred "Quadratic Probing") (fun r => rfl),
    filter_map_none (blockF "Double_Hashing_Time_ms" WideRow.double_hashing_time_ms
        "Insertion Time (ms)" "Double Hashing") (timePred "Quadratic Probing") (fun r => rfl)]
  simp only [List.nil_append, List.append_nil]
  rw [List.map_map]
  rfl

theorem time_pass_dt (w : List WideRow) :
    ((long_table w).filter (timePred "Double Hashing")).map LongRow.metric_value
      = w.map WideRow.double_hashing_time_ms := by
  rw [long_table_eq]
  simp only [List.filter_append]
  rw [
    filter_map_none (blockF "Chaining_Probes" WideRow.chaining_probes
        "Total Probes" "Separate Chaining") (timePred "Double Hashing") (fun r => rfl),
    filter_map_none (blockF "Linear_Probing_Probes" WideRow.linear_probing_probes
        "Total Probes" "Linear Probing") (timePred "Double Hashing") (fun r => rfl),
    filter_map_none (blockF "Quadratic_Probing_Probes" WideRow.quadratic_probing_probes
        "Total Probes" "Quadratic Probing") (timePred "Double Hashing") (fun r => rfl),
    filter_map_none (blockF "Double_Hashing_Probes" WideRow.double_hashing_probes
        "Total Probes" "Double Hashing") (timePred "Double Hashing") (fun r => rfl),
    filter_map_none (blockF "Chaining_Time_ms" WideRow.chaining_time_ms
        "Insertion Time (ms)" "Separate Chaining") (timePred "Double Hashing") (fun r => rfl),
    filter_map_none (blockF "Linear_Probing_Time_ms" WideRow.linear_probing_time_ms
        "Insertion Time (ms)" "Linear Probing") (timePred "Double Hashing") (fun r => rfl),
    filter_map_none (blockF "Quadratic_Probing_Time_ms" WideRow.quadratic_probing_time_ms
        "Insertion Time (ms)" "Quadratic Probing") (timePred "Double Hashing") (fun r => rfl),
    filter_map_all (blockF "Double_Hashing_Time_ms" WideRow.double_hashing_time_ms
        "Insertion Time (ms)" "Double Hashing") (timePred "Double Hashing") (fun r => rfl)]
  simp only [List.nil_append, List.append_nil]
  rw [List.map_map]
  rfl

/-- C3 (amended): for every wide table and every one of the four
techniques, the timing-group rows for that technique are exactly one row
per input row, in input order, whose value is the input row's timing cell
for that technique unchanged — an absent timing value for any technique
therefore appears as a missing-marker row (`none`), never as zero and
never silently dropped. -/
theorem C3_timing_value_passthrough (w : List WideRow) :
    ((long_table w).filter (timePred "Separate Chaining")).map LongRow.metric_value
      = w.map WideRow.chaining_time_ms ∧
    ((long_table w).filter (timePred "Linear Probing")).map LongRow.metric_value
      = w.map WideRow.linear_probing_time_ms ∧
    ((long_table w).filter (timePred "Quadratic Probing")).map LongRow.metric_value
      = w.map WideRow.quadratic_probing_time_ms ∧
    ((long_table w).filter (timePred "Double Hashing")).map LongRow.metric_value
      = w.map WideRow.double_hashing_time_ms :=
  ⟨time_pass_ct w, time_pass_lt w, time_pass_qt w, time_pass_dt w⟩

/-- C4 (counterexample): for the one-row table `[w0]`, in which only 7 of
the 8 unpivoted cells are populated, the long table still has 8 rows, not
`rows × populated-count = 7` as the claim states. -/
theorem C4_population_counterexample :
    (long_table [w0]).length = 8 ∧ populatedCount w0 = 7 ∧
    (long_table [w0]).length ≠ [w0].length * populatedCount w0 :=
  ⟨rfl, rfl, by decide⟩

/-- C4 (amended): for every wide table, the long table's row count is
`rows(input) × (|PROBE_COLS| + |TIME_COLS|) = rows(input) × 8`, regardless
of how many cells are populated — missing cells become missing-marker rows
rather than reducing the count. -/
theorem C4_long_row_count (w : List WideRow) :
    (long_table w).length = w.length * 8 := by
  rw [long_table_eq]
  simp [List.length_append]
  ring

/-- C5: the filter is idempotent — applying the `df_filtered` mask twice
with the same predicate set equals applying it once:
`query (query T P) P = query T P`. -/
theorem C5_filter_idempotent (T : List LongRow) (P : Predicates) :
    query (query T P) P = query T P := by
  simp [query, List.filter_filter]

theorem optMatch_eq_true {α : Type} (p : Option α) (f : α → Bool) :
    optMatch p f = true ↔ ∀ x, p = some x → f x = true := by
  cases p <;> simp [optMatch]

theorem le_nan_eq_true (x : Option ℚ) (a : ℚ) :
    le_nan x a = true ↔ ∃ v, x = some v ∧ v ≤ a := by
  cases x <;> simp [le_nan]

/-- Truth of the `df_filtered` mask, spelled out predicate by predicate. -/
theorem rowMatches_eq_true (P : Predicates) (r : LongRow) :
    rowMatches P r = true ↔
      ((∀ m, P.metric_type = some m → r.metric_type = m) ∧
       (∀ s, P.scale = some s → r.scale = s) ∧
       (∀ D, P.distributions = some D → r.distribution ∈ D) ∧
       (∀ ts, P.techniques = some ts → r.technique ∈ ts) ∧
       (∀ a, P.max_load_factor = some a → ∃ v, r.load_factor = some v ∧ v ≤ a)) := by
  simp only [rowMatches, Bool.and_eq_true, optMatch_eq_true, le_nan_eq_true,
    beq_iff_eq, decide_eq_true_eq]
  tauto

/-- C7: the filter returns exactly the rows satisfying every supplied
predicate conjunctively (Metric_Type equality, Scale equality, Distribution
membership, Technique membership, Load_Factor at most the bound; an omitted
predicate imposes no constraint), and it is a pure filter: the result is a
sublist of the input — original relative row order preserved and the kept
rows themselves unaltered. -/
theorem C7_filter_exact (T : List LongRow) (P : Predicates) :
    (query T P).Sublist T ∧
    ∀ r : LongRow, r ∈ query T P ↔
      (r ∈ T ∧
       (∀ m, P.metric_type = some m → r.metric_type = m) ∧
       (∀ s, P.scale = some s → r.scale = s) ∧
       (∀ D, P.distributions = some D → r.distribution ∈ D) ∧
       (∀ ts, P.techniques = some ts → r.technique ∈ ts) ∧
       (∀ a, P.max_load_factor = some a → ∃ v, r.load_factor = some v ∧ v ≤ a)) := by
  refine ⟨List.filter_sublist T, fun r => ?_⟩
  rw [query, List.mem_filter, rowMatches_eq_true]

/-- C7 (witness): the filter-exactness theorem applied to the concrete
scenario table and predicate set. -/
theorem C7_filter_exact_witness :
    (query (long_table [wU, wS]) c2_preds).Sublist (long_table [wU, wS]) :=
  (C7_filter_exact (long_table [wU, wS]) c2_preds).1

theorem rowMatches_update (P : Predicates) (a : ℚ) (r : LongRow) :
    rowMatches { P with max_load_factor := some a } r
      = (rowMatches { P with max_load_factor := none } r && le_nan r.load_factor a) := by
  simp [rowMatches, optMatch, Bool.and_assoc]

/-- C6: the filter is monotone in the load-factor bound — with all other
predicates equal, every row returned under the smaller bound is returned
under the larger bound. -/
theorem C6_filter_monotone (T : List LongRow) (P : Predicates) (a1 a2 : ℚ)
    (h : a1 < a2) :
    query T { P with max_load_factor := some a1 }
      ⊆ query T { P with max_load_factor := some a2 } := by
  intro r hr
  rw [query, List.mem_filter] at hr ⊢
  obtain ⟨hmem, hmatch⟩ := hr
  rw [rowMatches_update, Bool.and_eq_true] at hmatch
  refine ⟨hmem, ?_⟩
  rw [rowMatches_update, Bool.and_eq_true]
  refine ⟨hmatch.1, ?_⟩
  cases hlf : r.load_factor with
  | none => rw [hlf] at hmatch; exact absurd hmatch.2 (by simp [le_nan])
  | some v =>
    rw [hlf] at hmatch
    have hv : v ≤ a1 := by simpa [le_nan] using hmatch.2
    simp only [le_nan, decide_eq_true_eq]
    exact hv.trans h.le

/-- C6 (witness): monotonicity applied to the scenario table with the
concrete bounds 0 < 1. -/
theorem C6_filter_monotone_witness :
    (0 : ℚ) < 1 ∧
    query (long_table [wU, wS]) { c2_preds with max_load_factor := some 0 }
      ⊆ query (long_table [wU, wS]) { c2_preds with max_load_factor := some 1 } :=
  ⟨zero_lt_one, C6_filter_monotone (long_table [wU, wS]) c2_preds 0 1 zero_lt_one⟩

theorem mapM_eq_filterMap {α β : Type} (f : α → Option β) (l : List α)
    (h : ∀ m ∈ l, (f m).isSome) : l.mapM f = some (l.filterMap f) := by
  induction l with
  | nil => rfl
  | cons a t ih =>
    obtain ⟨b, hb⟩ := Option.isSome_iff_exists.mp (h a (List.mem_cons_self a t))
    rw [List.mapM_cons, hb, List.filterMap_cons, hb,
      ih (fun m hm => h m (List.mem_cons_of_mem a hm))]
    rfl

theorem addTechnique_isSome_of_mem (w : List WideRow) :
    ∀ m ∈ df_long w, (addTechnique m).isSome := by
  intro m hm
  rw [df_long, List.mem_append] at hm
  rcases hm with hm | hm
  · rw [df_probes, melt, List.mem_flatMap] at hm
    obtain ⟨c, hc, hm⟩ := hm
    rw [List.mem_map] at hm
    obtain ⟨r, _, rfl⟩ := hm
    simp only [PROBE_COLS, List.mem_cons, List.not_mem_nil, or_false] at hc
    rcases hc with rfl | rfl | rfl | rfl <;> rfl
  · rw [df_time, melt, List.mem_flatMap] at hm
    obtain ⟨c, hc, hm⟩ := hm
    rw [List.mem_map] at hm
    obtain ⟨r, _, rfl⟩ := hm
    simp only [TIME_COLS, List.mem_cons, List.not_mem_nil, or_false] at hc
    rcases hc with rfl | rfl | rfl | rfl <;> rfl

/-- C10: the technique-label lookup inside the reshape is total — the
KeyError branch of `TECHNIQUE_MAP[x]` is unreachable, so `load_data`
succeeds and returns the long table, the raw name of every long row maps to
its Technique under TECHNIQUE_MAP, and every long row's Technique is one of
the four display names and its Metric_Type one of the two group tags. -/
theorem C10_technique_lookup_total (w : List WideRow) :
    load_data w = some (long_table w) ∧
    ∀ r ∈ long_table w,
      TECHNIQUE_MAP r.technique_raw = some r.technique ∧
      r.technique ∈ ["Separate Chaining", "Linear Probing",
        "Quadratic Probing", "Double Hashing"] ∧
      r.metric_type ∈ ["Total Probes", "Insertion Time (ms)"] := by
  refine ⟨mapM_eq_filterMap _ _ (addTechnique_isSome_of_mem w), ?_⟩
  intro r hr
  rw [long_table_eq] at hr
  simp only [List.mem_append, List.mem_map] at hr
  rcases hr with ⟨s, _, rfl⟩ | ⟨s, _, rfl⟩ | ⟨s, _, rfl⟩ | ⟨s, _, rfl⟩ |
    ⟨s, _, rfl⟩ | ⟨s, _, rfl⟩ | ⟨s, _, rfl⟩ | ⟨s, _, rfl⟩ <;>
    exact ⟨rfl, by simp [blockF, mkLong], by simp [blockF, mkLong]⟩

/-- A wide row with every numeric cell missing, for concrete witnesses. -/
def wNone : WideRow :=
  { key_index := none, load_factor := none, scale := "Macro",
    distribution := "Uniform",
    chaining_probes := none, linear_probing_probes := none,
    quadratic_probing_probes := none, double_hashing_probes := none,
    chaining_time_ms := none, linear_probing_time_ms := none,
    quadratic_probing_time_ms := none, double_hashing_time_ms := none }

/-- The first long row the reshape produces for `wNone`. -/
def r10 : LongRow :=
  blockF "Chaining_Probes" WideRow.chaining_probes "Total Probes"
    "Separate Chaining" wNone

/-- C10 (witness): totality applied to the one-row table `[wNone]` and its
first long row. -/
theorem C10_technique_lookup_total_witness :
    load_data [wNone] = some (long_table [wNone]) ∧
    (TECHNIQUE_MAP r10.technique_raw = some r10.technique ∧
     r10.technique ∈ ["Separate Chaining", "Linear Probing",
       "Quadratic Probing", "Double Hashing"] ∧
     r10.metric_type ∈ ["Total Probes", "Insertion Time (ms)"]) :=
  ⟨(C10_technique_lookup_total [wNone]).1,
   (C10_technique_lookup_total [wNone]).2 r10 (by decide)⟩

/-- The id-column tuple (Scale, Distribution, Load_Factor, Key_Index) that
identifies an observation context. -/
abbrev IdKey : Type := String × String × Option ℚ × Option ℚ

/-- Id columns of a wide row. -/
def idOfW (r : WideRow) : IdKey := (r.scale, r.distribution, r.load_factor, r.key_index)

/-- Id columns of a long row. -/
def idOfL (r : LongRow) : IdKey := (r.scale, r.distribution, r.load_factor, r.key_index)

/-- Keep-first deduplication, as a pivot's index of distinct id tuples in
first-occurrence order. -/
def dedupFirst {α : Type} [DecidableEq α] : List α → List α
  | [] => []
  | a :: l => a :: dedupFirst (l.filter (fun b => decide (b ≠ a)))
termination_by l => l.length
decreasing_by
  simp only [List.length_cons]
  exact Nat.lt_succ_of_le (List.length_filter_le _ _)

theorem dedupFirst_nodup_eq {α : Type} [DecidableEq α] (l : List α)
    (h : l.Nodup) : dedupFirst l = l := by
  induction l with
  | nil => simp [dedupFirst]
  | cons a l ih =>
    rw [dedupFirst]
    rw [List.nodup_cons] at h
    rw [List.filter_eq_self.mpr ?_, ih h.2]
    intro b hb
    simp only [decide_eq_true_eq]
    intro hba; exact h.1 (hba ▸ hb)

theorem dedupFirst_append {α : Type} [DecidableEq α] (xs ys : List α)
    (h : ∀ a ∈ ys, a ∈ xs) : dedupFirst (xs ++ ys) = dedupFirst xs := by
  induction xs using dedupFirst.induct generalizing ys with
  | case1 =>
    have : ys = [] := List.eq_nil_iff_forall_not_mem.mpr (fun a ha => by simpa using h a ha)
    simp [this]
  | case2 a l ih =>
    rw [List.cons_append, dedupFirst, dedupFirst, List.filter_append]
    congr 1
    apply ih
    intro b hb
    rw [List.mem_filter] at hb ⊢
    refine ⟨?_, hb.2⟩
    have hbx := h b hb.1
    rcases List.mem_cons.mp hbx with h1 | h1
    · exact absurd h1 (by simpa using hb.2)
    · exact h1

/-- The pivot's row-selection predicate: match on the id tuple and the
(technique, metric_type) combination. -/
def pivotPred (id : IdKey) (tech mt : String) (r : LongRow) : Bool :=
  decide (idOfL r = id ∧ r.technique = tech ∧ r.metric_type = mt)

/-- The pivot's cell lookup: the value of the first long row matching the
id tuple and the (technique, metric_type) combination. -/
def lookupVal (l : List LongRow) (id : IdKey) (tech mt : String) : Option ℚ :=
  match l.find? (pivotPred id tech mt) with
  | some r => r.metric_value
  | none => none

/-- One pivoted wide row: id columns restored in schema order, each of the
eight value cells looked up by its (technique, metric_type) combination. -/
def pivotRow (l : List LongRow) (id : IdKey) : WideRow :=
  { scale := id.1, distribution := id.2.1, load_factor := id.2.2.1,
    key_index := id.2.2.2,
    chaining_probes := lookupVal l id "Separate Chaining" "Total Probes",
    linear_probing_probes := lookupVal l id "Linear Probing" "Total Probes",
    quadratic_probing_probes := lookupVal l id "Quadratic Probing" "Total Probes",
    double_hashing_probes := lookupVal l id "Double Hashing" "Total Probes",
    chaining_time_ms := lookupVal l id "Separate Chaining" "Insertion Time (ms)",
    linear_probing_time_ms := lookupVal l id "Linear Probing" "Insertion Time (ms)",
    quadratic_probing_time_ms := lookupVal l id "Quadratic Probing" "Insertion Time (ms)",
    double_hashing_time_ms := lookupVal l id "Double Hashing" "Insertion Time (ms)" }

/-- Pivoting a long table back to wide form on (technique, metric_type)
against the id columns: one output row per distinct id tuple, in
first-occurrence order. -/
def pivot (l : List LongRow) : List WideRow :=
  (dedupFirst (l.map idOfL)).map (pivotRow l)

theorem findNe (raw : String) (get : WideRow → Option ℚ)
    (mt tech tech2 mt2 : String) (h : (tech == tech2 && mt == mt2) = false)
    (id : IdKey) (w : List WideRow) :
    (w.map (blockF raw get mt tech)).find? (pivotPred id tech2 mt2) = none := by
  rw [List.find?_eq_none]
  intro x hx
  rw [List.mem_map] at hx
  obtain ⟨r, _, rfl⟩ := hx
  simp only [pivotPred, blockF, mkLong, decide_eq_true_eq]
  rintro ⟨-, h1, h2⟩
  rw [h1, h2] at h
  simp at h

theorem findEq (raw : String) (get : WideRow → Option ℚ) (mt tech : String)
    (id : IdKey) (w : List WideRow) :
    (w.map (blockF raw get mt tech)).find? (pivotPred id tech mt)
      = (w.find? (fun r => decide (idOfW r = id))).map (blockF raw get mt tech) := by
  induction w with
  | nil => rfl
  | cons a l ih =>
    simp only [List.map_cons, List.find?_cons]
    by_cases h : idOfW a = id
    · rw [show pivotPred id tech mt (blockF raw get mt tech a) = true from by
          simp only [pivotPred, blockF, mkLong, idOfL, decide_eq_true_eq]
          exact ⟨h, trivial, trivial⟩,
        show decide (idOfW a = id) = true from by simp [h]]
      rfl
    · rw [show pivotPred id tech mt (blockF raw get mt tech a) = false from by
          simp only [pivotPred, blockF, mkLong, idOfL, decide_eq_false_iff_not]
          rintro ⟨hc, -, -⟩
          exact h hc,
        show decide (idOfW a = id) = false from by simp [h]]
      exact ih

theorem find?_nodup_self : ∀ (w : List WideRow), (w.map idOfW).Nodup →
    ∀ wi ∈ w, w.find? (fun r => decide (idOfW r = idOfW wi)) = some wi := by
  intro w
  induction w with
  | nil => intro _ wi hmem; cases hmem
  | cons a l ih =>
    intro hnd wi hmem
    rw [List.map_cons, List.nodup_cons] at hnd
    rw [List.find?_cons]
    by_cases h : idOfW a = idOfW wi
    · have ha : a = wi := by
        rcases List.mem_cons.mp hmem with rfl | hl
        · rfl
        · exact absurd (List.mem_map_of_mem idOfW hl) (h ▸ hnd.1)
      rw [show decide (idOfW a = idOfW wi) = true from by simp [h], ha]
    · rw [show decide (idOfW a = idOfW wi) = false from by simp [h]]
      have hl : wi ∈ l := by
        rcases List.mem_cons.mp hmem with rfl | hl
        · exact absurd rfl h
        · exact hl
      exact ih hnd.2 wi hl


theorem lookup_cp (w : List WideRow) (hnd : (w.map idOfW).Nodup)
    (wi : WideRow) (hmem : wi ∈ w) :
    lookupVal (long_table w) (idOfW wi) "Separate Chaining" "Total Probes"
      = wi.chaining_probes := by
  rw [lookupVal, long_table_eq]
  simp only [List.find?_append]
  rw [findEq "Chaining_Probes" WideRow.chaining_probes
      "Total Probes" "Separate Chaining" (idOfW wi) w,
    find?_nodup_self w hnd wi hmem]
  rw [findNe "Linear_Probing_Probes" WideRow.linear_probing_probes
      "Total Probes" "Linear Probing" "Separate Chaining" "Total Probes" rfl (idOfW wi) w]
  rw [findNe "Quadratic_Probing_Probes" WideRow.quadratic_probing_probes
      "Total Probes" "Quadratic Probing" "Separate Chaining" "Total Probes" rfl (idOfW wi) w]
  rw [findNe "Double_Hashing_Probes" WideRow.double_hashing_probes
      "Total Probes" "Double Hashing" "Separate Chaining" "Total Probes" rfl (idOfW wi) w]
  rw [findNe "Chaining_Time_ms" WideRow.chaining_time_ms
      "Insertion Time (ms)" "Separate Chaining" "Separate Chaining" "Total Probes" rfl (idOfW wi) w]
  rw [findNe "Linear_Probing_Time_ms" WideRow.linear_probing_time_ms
      "Insertion Time (ms)" "Linear Probing" "Separate Chaining" "Total Probes" rfl (idOfW wi) w]
  rw [findNe "Quadratic_Probing_Time_ms" WideRow.quadratic_probing_time_ms
      "Insertion Time (ms)" "Quadratic Probing" "Separate Chaining" "Total Probes" rfl (idOfW wi) w]
  rw [findNe "Double_Hashing_Time_ms" WideRow.double_hashing_time_ms
      "Insertion Time (ms)" "Double Hashing" "Separate Chaining" "Total Probes" rfl (idOfW wi) w]
  rfl

theorem lookup_lp (w : List WideRow) (hnd : (w.map idOfW).Nodup)
    (wi : WideRow) (hmem : wi ∈ w) :
    lookupVal (long_table w) (idOfW wi) "Linear Probing" "Total Probes"
      = wi.linear_probing_probes := by
  rw [lookupVal, long_table_eq]
  simp only [List.find?_append]
  rw [findEq "Linear_Probing_Probes" WideRow.linear_probing_probes
      "Total Probes" "Linear Probing" (idOfW wi) w,
    find?_nodup_self w hnd wi hmem]
  rw [findNe "Chaining_Probes" WideRow.chaining_probes
      "Total Probes" "Separate Chaining" "Linear Probing" "Total Probes" rfl (idOfW wi) w]
  rw [findNe "Quadratic_Probing_Probes" WideRow.quadratic_probing_probes
      "Total Probes" "Quadratic Probing" "Linear Probing" "Total Probes" rfl (idOfW wi) w]
  rw [findNe "Double_Hashing_Probes" WideRow.double_hashing_probes
      "Total Probes" "Double Hashing" "Linear Probing" "Total Probes" rfl (idOfW wi) w]
  rw [findNe "Chaining_Time_ms" WideRow.chaining_time_ms
      "Insertion Time (ms)" "Separate Chaining" "Linear Probing" "Total Probes" rfl (idOfW wi) w]
  rw [findNe "Linear_Probing_Time_ms" WideRow.linear_probing_time_ms
      "Insertion Time (ms)" "Linear Probing" "Linear Probing" "Total Probes" rfl (idOfW wi) w]
  rw [findNe "Quadratic_Probing_Time_ms" WideRow.quadratic_probing_time_ms
      "Insertion Time (ms)" "Quadratic Probing" "Linear Probing" "Total Probes" rfl (idOfW wi) w]
  rw [findNe "Double_Hashing_Time_ms" WideRow.double_hashing_time_ms
      "Insertion Time (ms)" "Double Hashing" "Linear Probing" "Total Probes" rfl (idOfW wi) w]
  rfl

theorem lookup_qp (w : List WideRow) (hnd : (w.map idOfW).Nodup)
    (wi : WideRow) (hmem : wi ∈ w) :
    lookupVal (long_table w) (idOfW wi) "Quadratic Probing" "Total Probes"
      = wi.quadratic_probing_probes := by
  rw [lookupVal, long_table_eq]
  simp only [List.find?_append]
  rw [findEq "Quadratic_Probing_Probes" WideRow.quadratic_probing_probes
      "Total Probes" "Quadratic Probing" (idOfW wi) w,
    find?_nodup_self w hnd wi hmem]
  rw [findNe "Chaining_Probes" WideRow.chaining_probes
      "Total Probes" "Separate Chaining" "Quadratic Probing" "Total Probes" rfl (idOfW wi) w]
  rw [findNe "Linear_Probing_Probes" WideRow.linear_probing_probes
      "Total Probes" "Linear Probing" "Quadratic Probing" "Total Probes" rfl (idOfW wi) w]
  rw [findNe "Double_Hashing_Probes" WideRow.double_hashing_probes
      "Total Probes" "Double Hashing" "Quadratic Probing" "Total Probes" rfl (idOfW wi) w]
  rw [findNe "Chaining_Time_ms" WideRow.chaining_time_ms
      "Insertion Time (ms)" "Separate Chaining" "Quadratic Probing" "Total Probes" rfl (idOfW wi) w]
  rw [findNe "Linear_Probing_Time_ms" WideRow.linear_probing_time_ms
      "Insertion Time (ms)" "Linear Probing" "Quadratic Probing" "Total Probes" rfl (idOfW wi) w]
  rw [findNe "Quadratic_Probing_Time_ms" WideRow.quadratic_probing_time_ms
      "Insertion Time (ms)" "Quadratic Probing" "Quadratic Probing" "Total Probes" rfl (idOfW wi) w]
  rw [findNe "Double_Hashing_Time_ms" WideRow.double_hashing_time_ms
      "Insertion Time (ms)" "Double Hashing" "Quadratic Probing" "Total Probes" rfl (idOfW wi) w]
  rfl

theorem lookup_dp (w : List WideRow) (hnd : (w.map idOfW).Nodup)
    (wi : WideRow) (hmem : wi ∈ w) :
    lookupVal (long_table w) (idOfW wi) "Double Hashing" "Total Probes"
      = wi.double_hashing_probes := by
  rw [lookupVal, long_table_eq]
  simp only [List.find?_append]
  rw [findEq "Double_Hashing_Probes" WideRow.double_hashing_probes
      "Total Probes" "Double Hashing" (idOfW wi) w,
    find?_nodup_self w hnd wi hmem]
  rw [findNe "Chaining_Probes" WideRow.chaining_probes
      "Total Probes" "Separate Chaining" "Double Hashing" "Total Probes" rfl (idOfW wi) w]
  rw [findNe "Linear_Probing_Probes" WideRow.linear_probing_probes
      "Total Probes" "Linear Probing" "Double Hashing" "Total Probes" rfl (idOfW wi) w]
  rw [findNe "Quadratic_Probing_Probes" WideRow.quadratic_probing_probes
      "Total Probes" "Quadratic Probing" "Double Hashing" "Total Probes" rfl (idOfW wi) w]
  rw [findNe "Chaining_Time_ms" WideRow.chaining_time_ms
      "Insertion Time (ms)" "Separate Chaining" "Double Hashing" "Total Probes" rfl (idOfW wi) w]
  rw [findNe "Linear_Probing_Time_ms" WideRow.linear_probing_time_ms
      "Insertion Time (ms)" "Linear Probing" "Double Hashing" "Total Probes" rfl (idOfW wi) w]
  rw [findNe "Quadratic_Probing_Time_ms" WideRow.quadratic_probing_time_ms
      "Insertion Time (ms)" "Quadratic Probing" "Double Hashing" "Total Probes" rfl (idOfW wi) w]
  rw [findNe "Double_Hashing_Time_ms" WideRow.double_hashing_time_ms
      "Insertion Time (ms)" "Double Hashing" "Double Hashing" "Total Probes" rfl (idOfW wi) w]
  rfl

theorem lookup_ct (w : List WideRow) (hnd : (w.map idOfW).Nodup)
    (wi : WideRow) (hmem : wi ∈ w) :
    lookupVal (long_table w) (idOfW wi) "Separate Chaining" "Insertion Time (ms)"
      = wi.chaining_time_ms := by
  rw [lookupVal, long_table_eq]
  simp only [List.find?_append]
  rw [findEq "Chaining_Time_ms" WideRow.chaining_time_ms
      "Insertion Time (ms)" "Separate Chaining" (idOfW wi) w,
    find?_nodup_self w hnd wi hmem]
  rw [findNe "Chaining_Probes" WideRow.chaining_probes
      "Total Probes" "Separate Chaining" "Separate Chaining" "Insertion Time (ms)" rfl (idOfW wi) w]
  rw [findNe "Linear_Probing_Probes" WideRow.linear_probing_probes
      "Total Probes" "Linear Probing" "Separate Chaining" "Insertion Time (ms)" rfl (idOfW wi) w]
  rw [findNe "Quadratic_Probing_Probes" WideRow.quadratic_probing_probes
      "Total Probes" "Quadratic Probing" "Separate Chaining" "Insertion Time (ms)" rfl (idOfW wi) w]
  rw [findNe "Double_Hashing_Probes" WideRow.double_hashing_probes
      "Total Probes" "Double Hashing" "Separate Chaining" "Insertion Time (ms)" rfl (idOfW wi) w]
  rw [findNe "Linear_Probing_Time_ms" WideRow.linear_probing_time_ms
      "Insertion Time (ms)" "Linear Probing" "Separate Chaining" "Insertion Time (ms)" rfl (idOfW wi) w]
  rw [findNe "Quadratic_Probing_Time_ms" WideRow.quadratic_probing_time_ms
      "Insertion Time (ms)" "Quadratic Probing" "Separate Chaining" "Insertion Time (ms)" rfl (idOfW wi) w]
  rw [findNe "Double_Hashing_Time_ms" WideRow.double_hashing_time_ms
      "Insertion Time (ms)" "Double Hashing" "Separate Chaining" "Insertion Time (ms)" rfl (idOfW wi) w]
  rfl

theorem lookup_lt (w : List WideRow) (hnd : (w.map idOfW).Nodup)
    (wi : WideRow) (hmem : wi ∈ w) :
    lookupVal (long_table w) (idOfW wi) "Linear Probing" "Insertion Time (ms)"
      = wi.linear_probing_time_ms := by
  rw [lookupVal, long_table_eq]
  simp only [List.find?_append]
  rw [findEq "Linear_Probing_Time_ms" WideRow.linear_probing_time_ms
      "Insertion Time (ms)" "Linear Probing" (idOfW wi) w,
    find?_nodup_self w hnd wi hmem]
  rw [findNe "Chaining_Probes" WideRow.chaining_probes
      "Total Probes" "Separate Chaining" "Linear Probing" "Insertion Time (ms)" rfl (idOfW wi) w]
  rw [findNe "Linear_Probing_Probes" WideRow.linear_probing_probes
      "Total Probes" "Linear Probing" "Linear Probing" "Insertion Time (ms)" rfl (idOfW wi) w]
  rw [findNe "Quadratic_Probing_Probes" WideRow.quadratic_probing_probes
      "Total Probes" "Quadratic Probing" "Linear Probing" "Insertion Time (ms)" rfl (idOfW wi) w]
  rw [findNe "Double_Hashing_Probes" WideRow.double_hashing_probes
      "Total Probes" "Double Hashing" "Linear Probing" "Insertion Time (ms)" rfl (idOfW wi) w]
  rw [findNe "Chaining_Time_ms" WideRow.chaining_time_ms
      "Insertion Time (ms)" "Separate Chaining" "Linear Probing" "Insertion Time (ms)" rfl (idOfW wi) w]
  rw [findNe "Quadratic_Probing_Time_ms" WideRow.quadratic_probing_time_ms
      "Insertion Time (ms)" "Quadratic Probing" "Linear Probing" "Insertion Time (ms)" rfl (idOfW wi) w]
  rw [findNe "Double_Hashing_Time_ms" WideRow.double_hashing_time_ms
      "Insertion Time (ms)" "Double Hashing" "Linear Probing" "Insertion Time (ms)" rfl (idOfW wi) w]
  rfl

theorem lookup_qt (w : List WideRow) (hnd : (w.map idOfW).Nodup)
    (wi : WideRow) (hmem : wi ∈ w) :
    lookupVal (long_table w) (idOfW wi) "Quadratic Probing" "Insertion Time (ms)"
      = wi.quadratic_probing_time_ms := by
  rw [lookupVal, long_table_eq]
  simp only [List.find?_append]
  rw [findEq "Quadratic_Probing_Time_ms" WideRow.quadratic_probing_time_ms
      "Insertion Time (ms)" "Quadratic Probing" (idOfW wi) w,
    find?_nodup_self w hnd wi hmem]
  rw [findNe "Chaining_Probes" WideRow.chaining_probes
      "Total Probes" "Separate Chaining" "Quadratic Probing" "Insertion Time (ms)" rfl (idOfW wi) w]
  rw [findNe "Linear_Probing_Probes" WideRow.linear_probing_probes
      "Total Probes" "Linear Probing" "Quadratic Probing" "Insertion Time (ms)" rfl (idOfW wi) w]
  rw [findNe "Quadratic_Probing_Probes" WideRow.quadratic_probing_probes
      "Total Probes" "Quadratic Probing" "Quadratic Probing" "Insertion Time (ms)" rfl (idOfW wi) w]
  rw [findNe "Double_Hashing_Probes" WideRow.double_hashing_probes
      "Total Probes" "Double Hashing" "Quadratic Probing" "Insertion Time (ms)" rfl (idOfW wi) w]
  rw [findNe "Chaining_Time_ms" WideRow.chaining_time_ms
      "Insertion Time (ms)" "Separate Chaining" "Quadratic Probing" "Insertion Time (ms)" rfl (idOfW wi) w]
  rw [findNe "Linear_Probing_Time_ms" WideRow.linear_probing_time_ms
      "Insertion Time (ms)" "Linear Probing" "Quadratic Probing" "Insertion Time (ms)" rfl (idOfW wi) w]
  rw [findNe "Double_Hashing_Time_ms" WideRow.double_hashing_time_ms
      "Insertion Time (ms)" "Double Hashing" "Quadratic Probing" "Insertion Time (ms)" rfl (idOfW wi) w]
  rfl

theorem lookup_dt (w : List WideRow) (hnd : (w.map idOfW).Nodup)
    (wi : WideRow) (hmem : wi ∈ w) :
    lookupVal (long_table w) (idOfW wi) "Double Hashing" "Insertion Time (ms)"
      = wi.double_hashing_time_ms := by
  rw [lookupVal, long_table_eq]
  simp only [List.find?_append]
  rw [findEq "Double_Hashing_Time_ms" WideRow.double_hashing_time_ms
      "Insertion Time (ms)" "Double Hashing" (idOfW wi) w,
    find?_nodup_self w hnd wi hmem]
  rw [findNe "Chaining_Probes" WideRow.chaining_probes
      "Total Probes" "Separate Chaining" "Double Hashing" "Insertion Time (ms)" rfl (idOfW wi) w]
  rw [findNe "Linear_Probing_Probes" WideRow.linear_probing_probes
      "Total Probes" "Linear Probing" "Double Hashing" "Insertion Time (ms)" rfl (idOfW wi) w]
  rw [findNe "Quadratic_Probing_Probes" WideRow.quadratic_probing_probes
      "Total Probes" "Quadratic Probing" "Double Hashing" "Insertion Time (ms)" rfl (idOfW wi) w]
  rw [findNe "Double_Hashing_Probes" WideRow.double_hashing_probes
      "Total Probes" "Double Hashing" "Double Hashing" "Insertion Time (ms)" rfl (idOfW wi) w]
  rw [findNe "Chaining_Time_ms" WideRow.chaining_time_ms
      "Insertion Time (ms)" "Separate Chaining" "Double Hashing" "Insertion Time (ms)" rfl (idOfW wi) w]
  rw [findNe "Linear_Probing_Time_ms" WideRow.linear_probing_time_ms
      "Insertion Time (ms)" "Linear Probing" "Double Hashing" "Insertion Time (ms)" rfl (idOfW wi) w]
  rw [findNe "Quadratic_Probing_Time_ms" WideRow.quadratic_probing_time_ms
      "Insertion Time (ms)" "Quadratic Probing" "Double Hashing" "Insertion Time (ms)" rfl (idOfW wi) w]
  rfl

theorem pivotRow_long_table (w : List WideRow) (hnd : (w.map idOfW).Nodup)
    (wi : WideRow) (hmem : wi ∈ w) :
    pivotRow (long_table w) (idOfW wi) = wi := by
  have e1 := lookup_cp w hnd wi hmem
  have e2 := lookup_lp w hnd wi hmem
  have e3 := lookup_qp w hnd wi hmem
  have e4 := lookup_dp w hnd wi hmem
  have e5 := lookup_ct w hnd wi hmem
  have e6 := lookup_lt w hnd wi hmem
  have e7 := lookup_qt w hnd wi hmem
  have e8 := lookup_dt w hnd wi hmem
  obtain ⟨ki, lf, sc, di, p1, p2, p3, p4, t1, t2, t3, t4⟩ := wi
  simp only [pivotRow, idOfW] at e1 e2 e3 e4 e5 e6 e7 e8 ⊢
  rw [e1, e2, e3, e4, e5, e6, e7, e8]

/-- C8 (amended): for every wide table whose id tuples
(Scale, Distribution, Load_Factor, Key_Index) are pairwise distinct,
pivoting the long form back on (technique, metric_type) against the id
columns reproduces the original wide table exactly — same rows, same
order, every value unchanged (the embedding carries values untouched, so
there is no precision loss, and the id columns come back in schema
order). -/
theorem C8_pivot_round_trip (w : List WideRow)
    (hnd : (w.map idOfW).Nodup) : pivot (long_table w) = w := by
  rw [pivot]
  have hmap : (long_table w).map idOfL =
      (w.map idOfW) ++ ((w.map idOfW) ++ ((w.map idOfW) ++ ((w.map idOfW) ++
      ((w.map idOfW) ++ ((w.map idOfW) ++ ((w.map idOfW) ++ (w.map idOfW))))))) := by
    rw [long_table_eq]
    simp only [List.map_append, List.map_map]
    rfl
  have hsub : ∀ a ∈ ((w.map idOfW) ++ ((w.map idOfW) ++ ((w.map idOfW) ++
      ((w.map idOfW) ++ ((w.map idOfW) ++ ((w.map idOfW) ++ (w.map idOfW))))))),
      a ∈ w.map idOfW := by
    intro a ha
    simp only [List.mem_append] at ha
    tauto
  rw [hmap, dedupFirst_append _ _ hsub, dedupFirst_nodup_eq _ hnd, List.map_map]
  exact (List.map_congr_left
    (fun r hr => (pivotRow_long_table w hnd r hr :
      (pivotRow (long_table w) ∘ idOfW) r = id r))).trans (List.map_id w)

/-- A first wide row sharing its id tuple with `wDup2` but carrying a
different chaining probe value. -/
def wDup1 : WideRow := { wNone with chaining_probes := some 1 }

/-- A second wide row sharing its id tuple with `wDup1`. -/
def wDup2 : WideRow := { wNone with chaining_probes := some 2 }

/-- C8 (counterexample): for the wide table `[wDup1, wDup2]`, whose two
rows carry the same id tuple but different values, pivoting the long form
back does not reproduce the original wide table (the pivot collapses the
duplicate id and cannot restore both rows), so the round trip fails for
arbitrary wide tables. -/
theorem C8_duplicate_id_counterexample :
    pivot (long_table [wDup1, wDup2]) ≠ [wDup1, wDup2] := by
  intro h
  have hl := congrArg List.length h
  have h1 : (pivot (long_table [wDup1, wDup2])).length = 1 := by
    rw [pivot, List.length_map]
    rw [show (long_table [wDup1, wDup2]).map idOfL =
        [("Macro", "Uniform", (none : Option ℚ), (none : Option ℚ)),
         ("Macro", "Uniform", none, none), ("Macro", "Uniform", none, none),
         ("Macro", "Uniform", none, none), ("Macro", "Uniform", none, none),
         ("Macro", "Uniform", none, none), ("Macro", "Uniform", none, none),
         ("Macro", "Uniform", none, none), ("Macro", "Uniform", none, none),
         ("Macro", "Uniform", none, none), ("Macro", "Uniform", none, none),
         ("Macro", "Uniform", none, none), ("Macro", "Uniform", none, none),
         ("Macro", "Uniform", none, none), ("Macro", "Uniform", none, none),
         ("Macro", "Uniform", none, none)] from rfl]
    simp [dedupFirst]
  rw [h1] at hl
  simp at hl

/-- C8 (witness): the round trip applied to a concrete two-row wide table
with distinct id tuples. -/
theorem C8_pivot_round_trip_witness :
    (([wNone, { wNone with distribution := "Skewed" }].map idOfW).Nodup) ∧
    pivot (long_table [wNone, { wNone with distribution := "Skewed" }])
      = [wNone, { wNone with distribution := "Skewed" }] :=
  ⟨by decide, C8_pivot_round_trip _ (by decide)⟩

/-- A raw cell of the delimited input file, already tokenized: a numeric
token, a non-numeric text token, or an empty cell. -/
inductive Cell where
  | num (q : ℚ)
  | txt (s : String)
  | empty
  deriving Repr, DecidableEq

/-- The loader's error taxonomy: FileNotFound for a missing path,
SchemaMismatch for a column-count or type-coercion failure. -/
inductive LoadError where
  | fileNotFound
  | schemaMismatch
  deriving Repr, DecidableEq

/-- Modelled from the spec: coercion of one cell to a numeric column
(the parsing internals of `pd.read_csv` are external library code, not in
src/) — a numeric token coerces, an empty cell loads as missing, and a
non-numeric token in a numeric column is a type-coercion failure. -/
def numCell : Cell → Option (Option ℚ)
  | .num q => some (some q)
  | .empty => some none
  | .txt _ => none

/-- Modelled from the spec: a categorical column accepts a text token. -/
def strCell : Cell → Option String
  | .txt s => some s
  | _ => none

/-- Modelled from the spec: one data line checked against the explicit
ALL_COLS schema — exactly twelve cells in schema order (Key_Index,
Load_Factor, Scale, Distribution, four probe columns, four timing
columns); a wrong column count or a failed coercion is a schema
mismatch (`none`). -/
def parseRow (cells : List Cell) : Option WideRow :=
  match cells with
  | [k, lf, sc, di, c1, c2, c3, c4, u1, u2, u3, u4] => do
    let kv ← numCell k
    let lfv ← numCell lf
    let scv ← strCell sc
    let dv ← strCell di
    let c1v ← numCell c1
    let c2v ← numCell c2
    let c3v ← numCell c3
    let c4v ← numCell c4
    let u1v ← numCell u1
    let u2v ← numCell u2
    let u3v ← numCell u3
    let u4v ← numCell u4
    pure { key_index := kv, load_factor := lfv, scale := scv, distribution := dv,
           chaining_probes := c1v, linear_probing_probes := c2v,
           quadratic_probing_probes := c3v, double_hashing_probes := c4v,
           chaining_time_ms := u1v, linear_probing_time_ms := u2v,
           quadratic_probing_time_ms := u3v, double_hashing_time_ms := u4v }
  | _ => none

/-- Modelled from the spec: the `pd.read_csv('results_data.csv',
header=None, names=ALL_COLS, skiprows=1)` call of src/app.py — a missing
file (`none`) signals FileNotFound; otherwise the first line is discarded
unread (the untrusted header) and every remaining line is parsed against
the explicit schema, any failure signalling SchemaMismatch. -/
def read_csv (file : Option (List (List Cell))) : Except LoadError (List WideRow) :=
  match file with
  | none => .error .fileNotFound
  | some lines =>
    match (lines.drop 1).mapM parseRow with
    | some rows => .ok rows
    | none => .error .schemaMismatch

/-- The try/except of src/app.py lines 39-49 around the load, followed by
the reshape: a load error halts everything (`st.error` + `st.stop`) and is
surfaced unchanged; only a fully loaded table reaches the reshape. -/
def pipeline (file : Option (List (List Cell))) : Except LoadError (List LongRow) :=
  match read_csv file with
  | .error e => .error e
  | .ok w => .ok (long_table w)

theorem mapM_eq_none {α β : Type} (f : α → Option β) :
    ∀ (l : List α) (r : α), r ∈ l → f r = none → l.mapM f = none := by
  intro l
  induction l with
  | nil => intro r hr; cases hr
  | cons a t ih =>
    intro r hr hf
    rw [List.mapM_cons]
    rcases List.mem_cons.mp hr with rfl | hm
    · rw [hf]; rfl
    · cases hfa : f a with
      | none => rfl
      | some b => rw [ih r hm hf]; rfl

/-- C9: the loader discards the file's first line as an untrusted header
(its content never influences the result), signals FileNotFound when the
path does not exist, signals SchemaMismatch when any remaining line fails
the explicit schema (column count or numeric coercion), and on either
failure the whole pipeline halts with that error — it never proceeds with
partial data. -/
theorem C9_loader_contract :
    (read_csv none = .error .fileNotFound ∧
     pipeline none = .error .fileNotFound) ∧
    (∀ h1 h2 rest, read_csv (some (h1 :: rest)) = read_csv (some (h2 :: rest))) ∧
    (∀ lines r, r ∈ lines.drop 1 → parseRow r = none →
      read_csv (some lines) = .error .schemaMismatch) ∧
    (∀ file e, read_csv file = .error e → pipeline file = .error e) := by
  refine ⟨⟨rfl, rfl⟩, fun h1 h2 rest => rfl, ?_, ?_⟩
  · intro lines r hmem hr
    simp only [read_csv]
    rw [mapM_eq_none parseRow _ r hmem hr]
  · intro file e h
    simp only [pipeline]
    rw [h]

/-- C9 (witness): the loader contract applied to concrete inputs — a
missing file, a file whose second line has the wrong column count, and two
files differing only in their discarded header line. -/
theorem C9_loader_contract_witness :
    read_csv none = .error .fileNotFound ∧
    read_csv (some [[Cell.txt "old header"], []]) = .error .schemaMismatch ∧
    pipeline none = .error .fileNotFound ∧
    read_csv (some ([Cell.txt "old header"] :: [[]]))
      = read_csv (some ([Cell.empty] :: [[]])) :=
  ⟨C9_loader_contract.1.1,
   C9_loader_contract.2.2.1 [[Cell.txt "old header"], []] [] (by decide) rfl,
   C9_loader_contract.2.2.2 none LoadError.fileNotFound C9_loader_contract.1.1,
   C9_loader_contract.2.1 [Cell.txt "old header"] [Cell.empty] [[]]⟩
